import Mathlib

/-!
Shallow embedding of the p9221 wireless-charger driver (p9221_charger.c)
and proofs about its protection handler, alignment engine, RTX state
machine, FOD verify-write loop and notifier work.

Each definition is translated from the named C function; machine integers
that stay in range are modelled as `Nat`/`Int`.  Hardware reads and the
results of external calls (i2c, votables, chip ops) are supplied by
explicit environment records, one field per call site.
-/

namespace P9221

/-! ## Constants (p9221_charger.c lines 27-43) -/

def P9221R5_OVER_CHECK_NUM : Nat := 3
def OVC_LIMIT : Nat := 1
def OVC_THRESHOLD : Nat := 1400000
def OVC_BACKOFF_LIMIT : Int := 900000
def OVC_BACKOFF_AMOUNT : Int := 100000
def WLC_ALIGNMENT_MAX : Nat := 100

/-! ## Alignment engine (p9221_align_work, lines 604-732)

The scoring part of `p9221_align_work` (lines 689-731).  Frequencies and
the adjusted frequency are `int` in C; every value the driver ever feeds
here is nonnegative, and the score division `(WLC_ALIGNMENT_MAX * i) /
(align_buckets - 1)` has nonnegative operands whenever it is reached, so
it is computed in `Nat` (C `int` division and `Nat` division agree on
nonnegative operands). -/

/-- The bucket-search loop of `p9221_align_work` (lines 699-706): find the
first index `i < align_buckets` with
`alignment_freq[i] < wlc_adj_freq <= alignment_freq[i+1]`.  The list
argument is the suffix of the breakpoint array starting at index `i`, so
the loop bound `i < nb_alignment_freq - 1` is exactly "at least two
elements remain". -/
def bucketScan (adj : Int) : List Int → Nat → Option Nat
  | a :: b :: rest, i =>
      if a < adj ∧ adj ≤ b then some i else bucketScan adj (b :: rest) (i + 1)
  | _, _ => none

/-- Lines 689-711 of `p9221_align_work`: `align_buckets =
nb_alignment_freq - 1`; `alignment` starts at `-1`, stays `-1` when the
adjusted frequency is below `alignment_freq[0]` or no bucket matches
(above range), and otherwise becomes
`(WLC_ALIGNMENT_MAX * i) / (align_buckets - 1)`. -/
def alignScore (freqs : List Int) (adj : Int) : Int :=
  if adj < freqs.headD 0 then -1
  else
    match bucketScan adj freqs 0 with
    | none => -1
    | some i => ((WLC_ALIGNMENT_MAX * i) / (freqs.length - 2) : Nat)

/-- Result of one alignment evaluation cycle: the computed score, whether
a notification was published (`schedule_work(&charger->uevent_work)`), and
the updated `alignment_last`. -/
structure AlignCycle where
  alignment : Int
  published : Bool
  alignment_last : Int
  deriving DecidableEq, Repr

/-- Lines 713-731 of `p9221_align_work`: return without publishing when
the score equals `alignment_last`, otherwise publish exactly when the
score decreased or
`wlc_adj_freq >= alignment_freq[i] + alignment_hysteresis`; publishing
updates `alignment_last`. -/
def alignPublishStep (score last lowEdge hyst adj : Int) : AlignCycle :=
  if score = last then ⟨score, false, last⟩
  else if score < last ∨ lowEdge + hyst ≤ adj then ⟨score, true, score⟩
  else ⟨score, false, last⟩

/-- Lines 689-731 of `p9221_align_work`: compute the score, return early
(score `-1`, nothing published) when the adjusted frequency is out of
range, then run the publish decision. -/
def alignEvaluate (freqs : List Int) (hyst : Int) (adj : Int) (last : Int) :
    AlignCycle :=
  if adj < freqs.headD 0 then ⟨-1, false, last⟩
  else
    match bucketScan adj freqs 0 with
    | none => ⟨-1, false, last⟩
    | some i =>
        alignPublishStep ((WLC_ALIGNMENT_MAX * i) / (freqs.length - 2) : Nat)
          last (freqs.getD i 0) hyst adj

/-! ## Alignment status surface (p9221_show_alignment lines 2229-2245,
p9221_init_align lines 593-602) -/

/-- The fields of `struct p9221_charger_data` touched by
`p9221_init_align` and read by `p9221_show_alignment`. -/
structure AlignState where
  alignment : Int
  alignment_last : Int
  current_filtered : Nat
  current_sample_cnt : Nat
  mfg_check_count : Nat
  align : Nat
  deriving DecidableEq, Repr

/-- `p9221_init_align` (lines 593-602): reset the values used for
alignment and schedule `align_work`; the returned flag records the
`schedule_delayed_work(&charger->align_work, ...)` call. -/
def p9221_init_align (st : AlignState) : AlignState × Bool :=
  (⟨st.alignment, -1, 0, 0, 0, st.align⟩, true)

/-- What the alignment attribute prints: a status string indexed by
`charger->align`, or the numeric score. -/
inductive AlignShown where
  | statusStr (code : Nat)
  | score (v : Int)
  deriving DecidableEq, Repr

/-- `WLC_ALIGN_CENTERED` (enum `wlc_align_codes`, line 48). -/
def WLC_ALIGN_CENTERED : Nat := 2

/-- `p9221_show_alignment` (lines 2229-2245): when `charger->alignment ==
-1` it first runs `p9221_init_align` (mutating the filter state and
scheduling the periodic work), then prints either the status string or the
score.  Returns the state after the call and whether `align_work` was
scheduled. -/
def p9221_show_alignment (st : AlignState) : AlignState × Bool × AlignShown :=
  let (st1, sched) := if st.alignment = -1 then p9221_init_align st else (st, false)
  if st1.align ≠ WLC_ALIGN_CENTERED ∨ st1.alignment = -1 then
    (st1, sched, .statusStr st1.align)
  else
    (st1, sched, .score st1.alignment)

/-! ## Over-current protection handler (p9221_over_handle, lines 2815-2915)

The interrupt-status register layout lives in p9221_charger.h (not part of
src/), so the status word is abstracted into one named flag per bit the
handler tests (`irq_src & P9221R5_STAT_OVV/OVT/UV/OVC`); the handler's
control flow only ever tests these bits. -/

/-- The interrupt-status bits `p9221_over_handle` tests. -/
structure IrqFlags where
  ovv : Bool
  ovt : Bool
  uv : Bool
  ovc : Bool
  deriving DecidableEq, Repr

/-- `P9221_MA_TO_UA` from p9221_charger.h (header not in src/): the usual
milliamp-to-microamp conversion, as used at line 227 and with the spec's
current readings given in microamps. -/
def P9221_MA_TO_UA (x : Nat) : Nat := x * 1000

/-- Results of the external calls `p9221_over_handle` makes, one field per
call site, indexed by the retry-loop iteration. -/
structure OverEnv where
  dc_icl_votable : Bool
  icl : Int
  clearRet : Nat → Int
  ioutRet : Nat → Int
  ioutVal : Nat → Nat
  statusRet : Nat → Int
  statusOvc : Nat → Bool

inductive EopReason where
  | overVolt
  | overTemp
  | overCurrent
  deriving DecidableEq, Repr

/-- Observable actions of `p9221_over_handle`: the `P9221_OCP_VOTER`
backoff vote on the `dc_icl` votable, entry into an iteration of the
retry-poll loop, and `p9221_send_eop`. -/
inductive OverEvent where
  | backoffVote (v : Int)
  | pollIter (i : Nat)
  | eopSend (r : EopReason)
  deriving DecidableEq, Repr

inductive OverOutcome where
  | eopSent (r : EopReason)
  | ignoredUv
  | clearedEarly (i : Nat)
  | transientUnderLimit
  deriving DecidableEq, Repr

def isBackoffVote : OverEvent → Bool
  | .backoffVote _ => true
  | _ => false

def isPollIter : OverEvent → Bool
  | .pollIter _ => true
  | _ => false

/-- How many of the loop iterations `i ≤ k < i + fuel` sample an output
current above `OVC_THRESHOLD` (lines 2861-2877: a sample is taken only
when clearing the interrupts and reading IOUT both succeed). -/
def ovcCountFrom (env : OverEnv) : Nat → Nat → Nat
  | _, 0 => 0
  | i, fuel + 1 =>
      (if env.clearRet i = 0 ∧ env.ioutRet i = 0 ∧
          OVC_THRESHOLD < P9221_MA_TO_UA (env.ioutVal i) then 1 else 0) +
      ovcCountFrom env (i + 1) fuel

/-- The retry-poll loop of `p9221_over_handle` (lines 2860-2905): clear
the interrupts, read IOUT (counting samples above `OVC_THRESHOLD`), reread
the status register, and return early when the OVC bit cleared; a failed
call skips the rest of the iteration (`continue`).  After the loop, fewer
than `OVC_LIMIT` samples above threshold is treated as transient,
otherwise EOP is sent with the over-current reason. -/
def overLoop (env : OverEnv) : Nat → Nat → Nat → List OverEvent × OverOutcome
  | _, 0, cnt =>
      if cnt < OVC_LIMIT then ([], .transientUnderLimit)
      else ([.eopSend .overCurrent], .eopSent .overCurrent)
  | i, fuel + 1, cnt =>
      if env.clearRet i ≠ 0 then
        let r := overLoop env (i + 1) fuel cnt
        (.pollIter i :: r.1, r.2)
      else if env.ioutRet i ≠ 0 then
        let r := overLoop env (i + 1) fuel cnt
        (.pollIter i :: r.1, r.2)
      else
        let cnt' := if OVC_THRESHOLD < P9221_MA_TO_UA (env.ioutVal i) then
          cnt + 1 else cnt
        if env.statusRet i ≠ 0 then
          let r := overLoop env (i + 1) fuel cnt'
          (.pollIter i :: r.1, r.2)
        else if env.statusOvc i then
          let r := overLoop env (i + 1) fuel cnt'
          (.pollIter i :: r.1, r.2)
        else ([.pollIter i], .clearedEarly i)

/-- `p9221_over_handle` (lines 2815-2915): immediate EOP for over-voltage
and over-temperature; under-voltage without over-current is ignored;
otherwise the receive-current-limit vote is backed off by
`OVC_BACKOFF_AMOUNT` (only when a votable exists, the effective limit
read back nonnegative and above `OVC_BACKOFF_LIMIT`), and then the retry
loop runs `P9221R5_OVER_CHECK_NUM` times. -/
def p9221_over_handle (irq : IrqFlags) (env : OverEnv) :
    List OverEvent × OverOutcome :=
  if irq.ovv then ([.eopSend .overVolt], .eopSent .overVolt)
  else if irq.ovt then ([.eopSend .overTemp], .eopSent .overTemp)
  else if irq.uv ∧ ¬irq.ovc then ([], .ignoredUv)
  else
    let pre : List OverEvent :=
      if env.dc_icl_votable then
        if env.icl < 0 then []
        else if OVC_BACKOFF_LIMIT < env.icl then
          [.backoffVote (env.icl - OVC_BACKOFF_AMOUNT)]
        else []
      else []
    let r := overLoop env 0 P9221R5_OVER_CHECK_NUM 0
    (pre ++ r.1, r.2)

/-- Environment for the C1 witness: three successful polls, each reading
1500 mA (= 1500000 uA) with the OVC status bit still set. -/
def overEnvPersistent : OverEnv :=
  ⟨true, 1000000, fun _ => 0, fun _ => 0, fun _ => 1500, fun _ => 0,
    fun _ => true⟩

/-! ## Event ordering helper -/

/-- `precedesIn p q l` holds when every `p`-event in `l` occurs strictly
before every `q`-event: no `q`-event is followed by a `p`-event. -/
def precedesIn {α : Type} (p q : α → Bool) : List α → Bool
  | [] => true
  | x :: xs =>
      (if q x then xs.all (fun y => !(p y)) else true) && precedesIn p q xs

/-! ## RTX (reverse power) enable/disable (p9382_set_rtx lines 2553-2656,
p9382_ben_cfg lines 2496-2526, p9382_rtx_enable lines 2482-2494) -/

/-- `charger->ben_state`: `RTX_BEN_DISABLED`/`RTX_BEN_ON`/
`RTX_BEN_ENABLED` (lines 41-43). -/
inductive BenState where
  | disabled
  | benOn
  | enabled
  deriving DecidableEq, Repr

/-- `charger->rtx_err` values used by the driver (`RTX_NO_ERROR`,
`RTX_TX_CONFLICT`, `RTX_OVER_TEMP`; the numeric values live in the header,
which is not in src/). -/
inductive RtxErr where
  | noError
  | txConflict
  | overTemp
  deriving DecidableEq, Repr

/-- The fields of `struct p9221_charger_data` that `p9382_set_rtx` reads
or writes. `dcinVotableKnown` is `charger->disable_dcin_en_votable !=
NULL`. -/
structure RtxState where
  online : Bool
  ben_state : BenState
  rtx_csp : Int
  rtx_err : RtxErr
  dcinVotableKnown : Bool
  deriving DecidableEq, Repr

/-- Observable actions of `p9382_set_rtx`: chip transmit-mode commands,
the boost/switch GPIO outputs driven by `p9382_rtx_enable` (plus the
`ben_gpio` clear of `p9382_ben_cfg`'s DISABLED branch), the
`DISABLE_DCIN_EN` vote, interrupt enabling, the TX current-limit write and
the uevent notification. -/
inductive RtxEvent where
  | txModeEn (b : Bool)
  | outputsSet (b : Bool)
  | benGpioClear
  | dcinVote (b : Bool)
  | intsEnabled
  | txIlimSet (v : Int)
  | ueventWork
  deriving DecidableEq, Repr

/-- Results of the external calls `p9382_set_rtx` makes, one field per
call site, plus the GPIO configuration `p9382_ben_cfg` tests. -/
structure RtxEnv where
  txIclVotable : Bool
  txIcl : Int
  txIclMaxUa : Int
  findDcinVotable : Bool
  dcinVoteOnRet : Int
  txModeOnRet : Int
  txModeOffRet : Int
  dcinVoteOffRet : Int
  enableIntsRet : Int
  setTxIlimRet : Int
  benGpio : Int
  switchGpio : Int
  boostGpio : Int

def isDcinVoteOn : RtxEvent → Bool
  | .dcinVote true => true
  | _ => false

def isDcinVoteOff : RtxEvent → Bool
  | .dcinVote false => true
  | _ => false

def isOutputsOn : RtxEvent → Bool
  | .outputsSet true => true
  | _ => false

def isOutputsOff : RtxEvent → Bool
  | .outputsSet false => true
  | .benGpioClear => true
  | _ => false

/-- `p9382_rtx_enable` (lines 2482-2494): drive the ben/switch/boost GPIOs
and fail with `-ENODEV` when neither ben nor switch GPIO exists. -/
def p9382_rtx_enable (env : RtxEnv) (enable : Bool) : List RtxEvent × Int :=
  ([.outputsSet enable],
    if env.benGpio < 0 ∧ env.switchGpio < 0 then -19 else 0)

/-- `p9382_ben_cfg` (lines 2496-2526) for the two configurations
`p9382_set_rtx` uses.  `RTX_BEN_DISABLED`: run `p9382_rtx_enable(false)`
when the state was `RTX_BEN_ON`, else clear the ben GPIO when its number
equals `RTX_BEN_ENABLED` (2); `RTX_BEN_ON`: set the state and run
`p9382_rtx_enable(true)` (its return value is dropped).  Both valid
configurations return 0. -/
def p9382_ben_cfg (st : RtxState) (env : RtxEnv) (cfg : BenState) :
    RtxState × Int × List RtxEvent :=
  match cfg with
  | .disabled =>
      let ev :=
        if st.ben_state = .benOn then [RtxEvent.outputsSet false]
        else if env.benGpio = 2 then [RtxEvent.benGpioClear]
        else []
      (⟨st.online, .disabled, st.rtx_csp, st.rtx_err, st.dcinVotableKnown⟩,
        0, ev)
  | .benOn =>
      (⟨st.online, .benOn, st.rtx_csp, st.rtx_err, st.dcinVotableKnown⟩,
        0, [RtxEvent.outputsSet true])
  | .enabled =>
      (⟨st.online, .enabled, st.rtx_csp, st.rtx_err, st.dcinVotableKnown⟩,
        0, [])

/-- `p9382_set_rtx` (lines 2553-2656).  Returns the updated charger state,
the function's return value and the trace of observable actions in
program order.  The `vote()` call of the disable path is issued against a
possibly-NULL votable; a vote cast against a missing votable performs no
vote (modelled from the spec: casting a vote before the store exists is a
configuration error, surfaced as an error return distinct from a vote). -/
def p9382_set_rtx (st : RtxState) (env : RtxEnv) (enable : Bool) :
    RtxState × Int × List RtxEvent :=
  match enable with
  | false =>
    let ev0 := if st.rtx_err ≠ RtxErr.txConflict then [RtxEvent.txModeEn false]
      else []
    let (st1, _, ev1) := p9382_ben_cfg st env .disabled
    if st.dcinVotableKnown then
      (st1, env.dcinVoteOffRet,
        ev0 ++ ev1 ++ [RtxEvent.dcinVote false, RtxEvent.ueventWork])
    else
      (st1, -22, ev0 ++ ev1 ++ [RtxEvent.ueventWork])
  | true =>
    let txIcl : Int := if env.txIclVotable then env.txIcl else -1
    if txIcl = 0 then (st, 0, [RtxEvent.ueventWork])
    else if st.online then (st, 0, [RtxEvent.ueventWork])
    else
      let known := st.dcinVotableKnown || env.findDcinVotable
      let st0 : RtxState :=
        ⟨st.online, st.ben_state, st.rtx_csp, st.rtx_err, known⟩
      let evVote := if known = true then [RtxEvent.dcinVote true] else []
      if known = true ∧ env.dcinVoteOnRet ≠ 0 then
        (st0, env.dcinVoteOnRet, evVote ++ [RtxEvent.ueventWork])
      else
        let st1 : RtxState := ⟨st0.online, st0.ben_state, 0, .noError, known⟩
        let (st2, _, evOn) := p9382_ben_cfg st1 env .benOn
        if env.txModeOnRet < 0 then
          let (st3, _, evOff) := p9382_ben_cfg st2 env .disabled
          let evRel := if known = true then [RtxEvent.dcinVote false] else []
          (st3, env.txModeOnRet,
            evVote ++ evOn ++ [RtxEvent.txModeEn true] ++ evOff ++ evRel ++
              [RtxEvent.ueventWork])
        else
          let txIcl2 : Int := if env.txIclVotable then env.txIcl else -1
          let evIlim :=
            if 0 < txIcl2 ∧ txIcl2 ≠ env.txIclMaxUa then
              [RtxEvent.txIlimSet txIcl2] else []
          let ret :=
            if 0 < txIcl2 ∧ txIcl2 ≠ env.txIclMaxUa then env.setTxIlimRet
            else env.enableIntsRet
          (st2, ret,
            evVote ++ evOn ++ [RtxEvent.txModeEn true, RtxEvent.intsEnabled] ++
              evIlim ++ [RtxEvent.ueventWork])

/-- A concrete refused call for the C3 counterexample: receive session
online, RTX disabled, no TX ICL votable. -/
def rtxStateOnline : RtxState := ⟨true, .disabled, 7, .noError, true⟩

/-- A benign environment for RTX witnesses: votes and chip commands
succeed, both GPIOs exist. -/
def rtxEnvOk : RtxEnv := ⟨true, 500000, 1100000, true, 0, 0, 0, 0, 0, 0, 1, 3, 5⟩

/-- An offline state with the `DISABLE_DCIN_EN` votable already found. -/
def rtxStateOff : RtxState := ⟨false, .disabled, 0, .noError, true⟩

/-- An RTX environment in which the `DISABLE_DCIN_EN` vote fails. -/
def rtxEnvVoteFail : RtxEnv :=
  ⟨true, 500000, 1100000, true, 5, 0, 0, 0, 0, 0, 1, 3, 5⟩

/-! ## Receive-detect vs RTX interleaving (p9221_notifier_check_det lines
1514-1542, p9382_set_rtx enable guard lines 2582-2589, irq thread lines
3229-3265)

A small transition system over the fields that decide the mutual-exclusion
question: `charger->online`, `charger->ben_state` and the
`charger->check_det` flag the IRQ thread leaves for the notifier work. -/

structure DetState where
  online : Bool
  ben : BenState
  check_det : Bool
  deriving DecidableEq, Repr

/-- One asynchronous step of the driver, restricted to the three fields of
`DetState`:
`vrectIrq` - the IRQ thread (lines 3247-3264): with RTX off and not
online, a VRECT interrupt sets `check_det` and schedules notifier work;
`rtxEnable` - a successful `p9382_set_rtx(true)` (refused while online,
lines 2582-2589; sets `ben_state` via `p9382_ben_cfg(RTX_BEN_ON)`);
`rtxDisable` - `p9382_set_rtx(false)`;
`notifierDet` - `p9221_notifier_work` running `p9221_notifier_check_det`
(lines 1514-1542): skip when online with RTX off, otherwise
`p9221_set_online`. -/
inductive DetStep : DetState → DetState → Prop where
  | vrectIrq (s : DetState) (hben : s.ben = .disabled)
      (hon : s.online = false) : DetStep s ⟨s.online, s.ben, true⟩
  | rtxEnable (s : DetState) (hon : s.online = false) :
      DetStep s ⟨s.online, .benOn, s.check_det⟩
  | rtxDisable (s : DetState) : DetStep s ⟨s.online, .disabled, s.check_det⟩
  | notifierDet (s : DetState) (hdet : s.check_det = true) :
      DetStep s
        (if s.online = true ∧ s.ben = .disabled then ⟨s.online, s.ben, false⟩
         else ⟨true, s.ben, false⟩)

/-! ## FOD verify-write (p9221_write_fod, lines 238-301) -/

/-- Results of the register writes/reads `p9221_write_fod` makes, indexed
by the attempt number. -/
structure FodEnv where
  writeRet : Nat → Int
  readRet : Nat → Int
  readBack : Nat → List Nat

inductive FodOutcome where
  | ioError
  | verified
  | noTable
  | exhausted
  deriving DecidableEq, Repr

/-- One run of `p9221_write_fod`: how it ended, how many write attempts
were made, whether the `no_fod` warning fired, and the value returned to
the caller — the C function's return type is `void`, so this is `Unit`. -/
structure FodRun where
  outcome : FodOutcome
  attempts : Nat
  warned : Bool
  callerResult : Unit
  deriving DecidableEq, Repr

/-- The `while (retries)` loop of `p9221_write_fod` (lines 262-296):
write the table, read it back, succeed iff `memcmp` finds them equal;
an i2c failure returns immediately (without the `no_fod` warning);
running out of retries falls through to the `no_fod` warning. -/
def writeFodLoop (fod : List Nat) (env : FodEnv) : Nat → Nat → FodRun
  | 0, k => ⟨.exhausted, k, true, ()⟩
  | r + 1, k =>
      if env.writeRet k ≠ 0 then ⟨.ioError, k + 1, false, ()⟩
      else if env.readRet k ≠ 0 then ⟨.ioError, k + 1, false, ()⟩
      else if env.readBack k = fod then ⟨.verified, k + 1, false, ()⟩
      else writeFodLoop fod env r (k + 1)

/-- `p9221_write_fod` (lines 238-301): `fod = none` models the
configurations in which no table is selected (`goto no_fod`); otherwise
the verify-write loop runs with `retries = 3`. -/
def p9221_write_fod (fod : Option (List Nat)) (env : FodEnv) : FodRun :=
  match fod with
  | none => ⟨.noTable, 0, true, ()⟩
  | some f => writeFodLoop f env 3 0

/-- FOD environment whose read-back never matches the written table. -/
def fodEnvNeverMatch : FodEnv := ⟨fun _ => 0, fun _ => 0, fun _ => [10, 99]⟩

/-- FOD environment whose read-back matches `[10, 20]` immediately. -/
def fodEnvMatch : FodEnv := ⟨fun _ => 0, fun _ => 0, fun _ => [10, 20]⟩

/-! ## Notifier work error-variable dataflow (p9221_notifier_work, lines
1544-1597)

`int ret` is assigned by the Q-factor write (guarded by
`pdata->q_value != -1`) and later by `chip_get_vrect`; the
`chip_renegotiate_pwr` call (guarded by `pdata->epp_rp_value != -1`)
discards its return value, yet the following `if (ret < 0)` reads `ret`. -/

/-- The value of the local `ret` as the function runs: either still
uninitialized or holding the result of the last assignment. -/
inductive RetVar where
  | unset
  | val (v : Int)
  deriving DecidableEq, Repr

/-- What the renegotiate-power section of `p9221_notifier_work` observes:
whether the `if (ret < 0)` test after `chip_renegotiate_pwr` executed,
whether it read `ret` before any assignment in this invocation, and the
state of `ret` at that read. -/
structure NotifierRun where
  renegTestRan : Bool
  readUninit : Bool
  retAtTest : RetVar
  deriving DecidableEq, Repr

/-- Lines 1557-1575 of `p9221_notifier_work`: `ret` starts uninitialized;
the Q-factor branch assigns it from `p9221_reg_write_8`; the
renegotiate-power branch calls `chip_renegotiate_pwr` discarding
`renegRet` and then tests `ret < 0`. -/
def p9221_notifier_work_ret (q_value epp_rp_value : Int)
    (writeQRet renegRet : Int) : NotifierRun :=
  let ret0 : RetVar := .unset
  let ret1 := if q_value ≠ -1 then RetVar.val writeQRet else ret0
  if epp_rp_value ≠ -1 then
    ⟨true, ret1 == RetVar.unset, ret1⟩
  else
    ⟨false, false, ret1⟩

/-! ### Lemmas about the bucket search -/

theorem bucketScan_lt (adj : Int) :
    ∀ (l : List Int) (k i : Nat), bucketScan adj l k = some i →
      k ≤ i ∧ i + 1 < k + l.length := by
  intro l
  induction l with
  | nil => intro k i h; simp [bucketScan] at h
  | cons a rest ih =>
      intro k i h
      cases rest with
      | nil => simp [bucketScan] at h
      | cons b r =>
          rw [bucketScan] at h
          split at h
          · cases h; constructor
            · exact Nat.le_refl _
            · simp only [List.length_cons]; omega
          · have := ih (k + 1) i h
            constructor
            · omega
            · simp only [List.length_cons] at this ⊢; omega

theorem alignPublishStep_published (score last lowEdge hyst adj : Int)
    (h : (alignPublishStep score last lowEdge hyst adj).published = true) :
    score ≠ last ∧ (score < last ∨ lowEdge + hyst ≤ adj) ∧
    alignPublishStep score last lowEdge hyst adj =
      ⟨score, true, score⟩ := by
  unfold alignPublishStep at *
  split at h
  · simp at h
  · rename_i h1
    split at h
    · rename_i h2
      refine ⟨h1, h2, ?_⟩
      rw [if_neg h1, if_pos h2]
    · simp at h

theorem alignEvaluate_published (freqs : List Int) (hyst adj last : Int)
    (h : (alignEvaluate freqs hyst adj last).published = true) :
    (alignEvaluate freqs hyst adj last).alignment ≠ last ∧
    (alignEvaluate freqs hyst adj last).alignment_last =
      (alignEvaluate freqs hyst adj last).alignment ∧
    ∃ i, bucketScan adj freqs 0 = some i ∧
      ((alignEvaluate freqs hyst adj last).alignment < last ∨
        freqs.getD i 0 + hyst ≤ adj) := by
  by_cases hlow : adj < freqs.headD 0
  · unfold alignEvaluate at h
    rw [if_pos hlow] at h
    simp at h
  · rcases hscan : bucketScan adj freqs 0 with _ | i
    · unfold alignEvaluate at h
      rw [if_neg hlow, hscan] at h
      simp at h
    · have he : alignEvaluate freqs hyst adj last =
        alignPublishStep ((WLC_ALIGNMENT_MAX * i) / (freqs.length - 2) : Nat)
          last (freqs.getD i 0) hyst adj := by
        unfold alignEvaluate
        rw [if_neg hlow, hscan]
      rw [he] at h ⊢
      have hp := alignPublishStep_published _ _ _ _ _ h
      rw [hp.2.2]
      exact ⟨hp.1, rfl, i, rfl, hp.2.1⟩

/-- C6: the claim that an ascending breakpoint array with at least two
entries always yields either score `-1` or a well-defined score with
nonzero divisor is false: with exactly two breakpoints `[100, 200]` and
adjusted frequency `150` a bucket is found (the score is assigned, not
`-1`) while the divisor `align_buckets - 1 = nb_alignment_freq - 2` is
zero. -/
theorem alignScore_two_entry_divisor_zero :
    List.Pairwise (· < ·) ([100, 200] : List Int) ∧
    2 ≤ ([100, 200] : List Int).length ∧
    alignScore [100, 200] 150 ≠ -1 ∧
    ([100, 200] : List Int).length - 2 = 0 := by
  decide

/-- C6 (amended): for every configured ascending breakpoint array with at
least three entries, each alignment evaluation either leaves the score at
`-1` (adjusted frequency outside the configured range) or assigns
`score = (100 * bucket_index) / (array_length - 2)` with a nonzero
divisor, a well-defined value in `[0, 100]`. -/
theorem alignScore_bounds (freqs : List Int) (adj : Int)
    (_hasc : List.Pairwise (· < ·) freqs) (h3 : 3 ≤ freqs.length) :
    alignScore freqs adj = -1 ∨
    ∃ i, bucketScan adj freqs 0 = some i ∧ i + 1 < freqs.length ∧
      freqs.length - 2 ≠ 0 ∧
      alignScore freqs adj =
        ((WLC_ALIGNMENT_MAX * i / (freqs.length - 2) : Nat) : Int) ∧
      0 ≤ alignScore freqs adj ∧ alignScore freqs adj ≤ 100 := by
  by_cases hlow : adj < freqs.headD 0
  · left
    unfold alignScore
    rw [if_pos hlow]
  · rcases hscan : bucketScan adj freqs 0 with _ | i
    · left
      unfold alignScore
      rw [if_neg hlow, hscan]
    · right
      have hb := bucketScan_lt adj freqs 0 i hscan
      have hscore : alignScore freqs adj =
          ((WLC_ALIGNMENT_MAX * i / (freqs.length - 2) : Nat) : Int) := by
        unfold alignScore
        rw [if_neg hlow, hscan]
      refine ⟨i, rfl, by omega, by omega, hscore, ?_, ?_⟩
      · rw [hscore]
        exact Int.ofNat_nonneg _
      · rw [hscore]
        have hle : WLC_ALIGNMENT_MAX * i / (freqs.length - 2) ≤ 100 := by
          have h1 : WLC_ALIGNMENT_MAX * i ≤
              WLC_ALIGNMENT_MAX * (freqs.length - 2) :=
            Nat.mul_le_mul_left _ (by omega)
          have h2 : WLC_ALIGNMENT_MAX * i / (freqs.length - 2) ≤
              WLC_ALIGNMENT_MAX * (freqs.length - 2) / (freqs.length - 2) :=
            Nat.div_le_div_right h1
          have h3' : WLC_ALIGNMENT_MAX * (freqs.length - 2) /
              (freqs.length - 2) = WLC_ALIGNMENT_MAX :=
            Nat.mul_div_cancel _ (by omega)
          unfold WLC_ALIGNMENT_MAX at *
          omega
        exact_mod_cast hle

/-- C6 witness: a concrete three-entry ascending array where the amended
statement evaluates: the adjusted frequency `130000` falls in bucket 0 and
the score is in `[0, 100]`. -/
theorem alignScore_bounds_instance :
    alignScore [100000, 120000, 140000] 130000 = -1 ∨
    ∃ i, bucketScan 130000 [100000, 120000, 140000] 0 = some i ∧
      i + 1 < ([100000, 120000, 140000] : List Int).length ∧
      ([100000, 120000, 140000] : List Int).length - 2 ≠ 0 ∧
      alignScore [100000, 120000, 140000] 130000 =
        ((WLC_ALIGNMENT_MAX * i /
          (([100000, 120000, 140000] : List Int).length - 2) : Nat) : Int) ∧
      0 ≤ alignScore [100000, 120000, 140000] 130000 ∧
      alignScore [100000, 120000, 140000] 130000 ≤ 100 :=
  alignScore_bounds [100000, 120000, 140000] 130000 (by decide) (by decide)

/-- C7: across adjacent alignment evaluation cycles a score is published
only when it differs from the last published score and either decreased or
the adjusted frequency reached the bucket's lower breakpoint plus the
hysteresis margin; consequently the same value is never published twice in
a row. -/
theorem alignEvaluate_no_repeat_publish (freqs : List Int)
    (hyst a1 a2 last : Int) :
    ((alignEvaluate freqs hyst a1 last).published = true →
      (alignEvaluate freqs hyst a1 last).alignment ≠ last ∧
      ∃ i, bucketScan a1 freqs 0 = some i ∧
        ((alignEvaluate freqs hyst a1 last).alignment < last ∨
          freqs.getD i 0 + hyst ≤ a1)) ∧
    ((alignEvaluate freqs hyst a1 last).published = true →
      (alignEvaluate freqs hyst a2
          (alignEvaluate freqs hyst a1 last).alignment_last).published = true →
      (alignEvaluate freqs hyst a2
          (alignEvaluate freqs hyst a1 last).alignment_last).alignment ≠
        (alignEvaluate freqs hyst a1 last).alignment) := by
  constructor
  · intro h
    have := alignEvaluate_published freqs hyst a1 last h
    exact ⟨this.1, this.2.2⟩
  · intro h1 h2
    have e1 := alignEvaluate_published freqs hyst a1 last h1
    have e2 := alignEvaluate_published freqs hyst a2
      (alignEvaluate freqs hyst a1 last).alignment_last h2
    rw [← e1.2.1]
    exact e2.1

/-- C7 witness: concrete adjacent cycles on breakpoints `[100, 200, 300]`
with hysteresis 5: the first cycle (adjusted frequency 150) publishes
score 0, the second (adjusted frequency 250) publishes a different
score. -/
theorem alignEvaluate_no_repeat_publish_instance :
    ((alignEvaluate [100, 200, 300] 5 150 (-1)).alignment ≠ -1 ∧
      ∃ i, bucketScan 150 [100, 200, 300] 0 = some i ∧
        ((alignEvaluate [100, 200, 300] 5 150 (-1)).alignment < -1 ∨
          ([100, 200, 300] : List Int).getD i 0 + 5 ≤ 150)) ∧
    (alignEvaluate [100, 200, 300] 5 250
        (alignEvaluate [100, 200, 300] 5 150 (-1)).alignment_last).alignment ≠
      (alignEvaluate [100, 200, 300] 5 150 (-1)).alignment :=
  ⟨(alignEvaluate_no_repeat_publish [100, 200, 300] 5 150 250 (-1)).1 (by decide),
   (alignEvaluate_no_repeat_publish [100, 200, 300] 5 150 250 (-1)).2
     (by decide) (by decide)⟩

/-- C10: reading the alignment attribute is not a pure query when the
score is unknown: with `alignment = -1` it resets `alignment_last`,
`current_filtered`, `current_sample_cnt` and `mfg_check_count` and
schedules `align_work` (and prints the status string); with a known score
the state is returned unmodified and nothing is scheduled. -/
theorem show_alignment_effects (st : AlignState) :
    (st.alignment = -1 →
      p9221_show_alignment st =
        ((⟨st.alignment, -1, 0, 0, 0, st.align⟩, true,
          AlignShown.statusStr st.align) :
          AlignState × Bool × AlignShown)) ∧
    (st.alignment ≠ -1 →
      (p9221_show_alignment st).1 = st ∧
      (p9221_show_alignment st).2.1 = false) := by
  constructor
  · intro h
    simp [p9221_show_alignment, p9221_init_align, h]
  · intro h
    have hif : (if st.alignment = -1 then p9221_init_align st else (st, false)) =
        (st, false) := if_neg h
    simp only [p9221_show_alignment, hif]
    split <;> exact ⟨rfl, rfl⟩

/-- C10 witness: concrete states with unknown and with known score. -/
theorem show_alignment_effects_instance :
    p9221_show_alignment ⟨-1, 7, 5, 3, 2, 2⟩ =
      ((⟨-1, -1, 0, 0, 0, 2⟩, true, AlignShown.statusStr 2) :
        AlignState × Bool × AlignShown) ∧
    ((p9221_show_alignment ⟨50, 50, 5, 3, 2, 2⟩).1 = ⟨50, 50, 5, 3, 2, 2⟩ ∧
      (p9221_show_alignment ⟨50, 50, 5, 3, 2, 2⟩).2.1 = false) :=
  ⟨(show_alignment_effects ⟨-1, 7, 5, 3, 2, 2⟩).1 (by decide),
   (show_alignment_effects ⟨50, 50, 5, 3, 2, 2⟩).2 (by decide)⟩

/-! ### Over-current handler: retry-loop lemmas -/

theorem overLoop_escalates (env : OverEnv) :
    ∀ (fuel i cnt : Nat),
      (∀ k, i ≤ k → k < i + fuel → env.statusRet k = 0 →
        env.statusOvc k = true) →
      OVC_LIMIT ≤ cnt + ovcCountFrom env i fuel →
      (overLoop env i fuel cnt).2 = .eopSent .overCurrent := by
  intro fuel
  induction fuel with
  | zero =>
      intro i cnt _ hcnt
      simp only [ovcCountFrom] at hcnt
      simp only [overLoop]
      rw [if_neg (by omega)]
  | succ n ih =>
      intro i cnt h hcnt
      have hnext : ∀ k, i + 1 ≤ k → k < i + 1 + n →
          env.statusRet k = 0 → env.statusOvc k = true :=
        fun k h1 h2 h3 => h k (by omega) (by omega) h3
      simp only [overLoop]
      simp only [ovcCountFrom] at hcnt
      by_cases h1 : env.clearRet i ≠ 0
      · rw [if_pos h1]
        rw [if_neg (fun hh => h1 hh.1)] at hcnt
        exact ih (i + 1) cnt hnext (by omega)
      · rw [if_neg h1]
        push_neg at h1
        by_cases h2 : env.ioutRet i ≠ 0
        · rw [if_pos h2]
          rw [if_neg (fun hh => h2 hh.2.1)] at hcnt
          exact ih (i + 1) cnt hnext (by omega)
        · rw [if_neg h2]
          push_neg at h2
          by_cases h3 : OVC_THRESHOLD < P9221_MA_TO_UA (env.ioutVal i)
          · rw [if_pos ⟨h1, h2, h3⟩] at hcnt
            simp only [if_pos h3]
            by_cases h4 : env.statusRet i ≠ 0
            · rw [if_pos h4]
              exact ih (i + 1) (cnt + 1) hnext (by omega)
            · rw [if_neg h4]
              push_neg at h4
              have h5 := h i (Nat.le_refl i) (by omega) h4
              rw [if_pos h5]
              exact ih (i + 1) (cnt + 1) hnext (by omega)
          · rw [if_neg (fun hh => h3 hh.2.2)] at hcnt
            simp only [if_neg h3]
            by_cases h4 : env.statusRet i ≠ 0
            · rw [if_pos h4]
              exact ih (i + 1) cnt hnext (by omega)
            · rw [if_neg h4]
              push_neg at h4
              have h5 := h i (Nat.le_refl i) (by omega) h4
              rw [if_pos h5]
              exact ih (i + 1) cnt hnext (by omega)

theorem overLoop_no_backoff (env : OverEnv) :
    ∀ (fuel i cnt : Nat) (e : OverEvent), e ∈ (overLoop env i fuel cnt).1 →
      isBackoffVote e = false := by
  intro fuel
  induction fuel with
  | zero =>
      intro i cnt e he
      simp only [overLoop] at he
      by_cases h : cnt < OVC_LIMIT
      · rw [if_pos h] at he
        exact absurd he (by simp)
      · rw [if_neg h] at he
        obtain rfl : e = OverEvent.eopSend .overCurrent := by simpa using he
        rfl
  | succ n ih =>
      intro i cnt e he
      simp only [overLoop] at he
      by_cases h1 : env.clearRet i ≠ 0
      · rw [if_pos h1] at he
        rcases List.mem_cons.mp he with rfl | hm
        · rfl
        · exact ih (i + 1) cnt e hm
      · rw [if_neg h1] at he
        by_cases h2 : env.ioutRet i ≠ 0
        · rw [if_pos h2] at he
          rcases List.mem_cons.mp he with rfl | hm
          · rfl
          · exact ih (i + 1) cnt e hm
        · rw [if_neg h2] at he
          by_cases h4 : env.statusRet i ≠ 0
          · rw [if_pos h4] at he
            rcases List.mem_cons.mp he with rfl | hm
            · rfl
            · exact ih (i + 1) _ e hm
          · rw [if_neg h4] at he
            by_cases h5 : env.statusOvc i = true
            · rw [if_pos h5] at he
              rcases List.mem_cons.mp he with rfl | hm
              · rfl
              · exact ih (i + 1) _ e hm
            · rw [if_neg h5] at he
              obtain rfl : e = OverEvent.pollIter i := by simpa using he
              rfl

theorem precedesIn_no_p {α : Type} (p q : α → Bool) (l : List α)
    (h : ∀ x ∈ l, p x = false) : precedesIn p q l = true := by
  induction l with
  | nil => rfl
  | cons x xs ih =>
      simp only [precedesIn, Bool.and_eq_true]
      refine ⟨?_, ih (fun y hy => h y (List.mem_cons_of_mem _ hy))⟩
      split
      · rw [List.all_eq_true]
        intro y hy
        simp [h y (List.mem_cons_of_mem _ hy)]
      · rfl

theorem precedesIn_append {α : Type} (p q : α → Bool) (l1 l2 : List α)
    (h1 : ∀ x ∈ l1, q x = false) (h2 : ∀ x ∈ l2, p x = false) :
    precedesIn p q (l1 ++ l2) = true := by
  induction l1 with
  | nil => simpa using precedesIn_no_p p q l2 h2
  | cons x xs ih =>
      simp only [List.cons_append, precedesIn, Bool.and_eq_true]
      constructor
      · rw [if_neg (by simp [h1 x (List.mem_cons_self x xs)])]
      · exact ih (fun y hy => h1 y (List.mem_cons_of_mem _ hy))

/-- C1: when the handler takes the over-current path (OVC set, no
over-voltage/over-temperature), every status poll that succeeds still
shows the OVC bit set (so the retry budget is exhausted), and at least
`OVC_LIMIT` of the sampled currents exceed `OVC_THRESHOLD`, the handler
sends an end-of-power-transfer signal with the over-current reason. -/
theorem over_handle_escalates (irq : IrqFlags) (env : OverEnv)
    (hovc : irq.ovc = true) (hovv : irq.ovv = false) (hovt : irq.ovt = false)
    (hstat : ∀ k, k < P9221R5_OVER_CHECK_NUM → env.statusRet k = 0 →
      env.statusOvc k = true)
    (hcnt : OVC_LIMIT ≤ ovcCountFrom env 0 P9221R5_OVER_CHECK_NUM) :
    (p9221_over_handle irq env).2 = .eopSent .overCurrent := by
  unfold p9221_over_handle
  rw [if_neg (by simp [hovv]), if_neg (by simp [hovt]),
    if_neg (by simp [hovc])]
  exact overLoop_escalates env P9221R5_OVER_CHECK_NUM 0 0
    (fun k h1 h2 h3 => hstat k (by omega) h3) (by omega)

/-- C1 witness: three polls each reading 1500 mA (1500000 uA >
`OVC_THRESHOLD`) with the OVC status bit never clearing escalate to EOP
with the over-current reason. -/
theorem over_handle_escalates_witness :
    (p9221_over_handle ⟨false, false, false, true⟩ overEnvPersistent).2 =
      .eopSent .overCurrent :=
  over_handle_escalates ⟨false, false, false, true⟩ overEnvPersistent rfl rfl
    rfl (fun _ _ _ => rfl) (by decide)

/-- C4: within a single invocation of `p9221_over_handle`, a backoff vote
happens only when the `dc_icl` votable exists and its effective value
exceeds `OVC_BACKOFF_LIMIT`, it reduces that value by exactly
`OVC_BACKOFF_AMOUNT`, it is cast at most once, and it precedes every
iteration of the retry polling loop. -/
theorem over_handle_backoff_once (irq : IrqFlags) (env : OverEnv) (v : Int)
    (hmem : OverEvent.backoffVote v ∈ (p9221_over_handle irq env).1) :
    env.dc_icl_votable = true ∧ OVC_BACKOFF_LIMIT < env.icl ∧
    v = env.icl - OVC_BACKOFF_AMOUNT ∧
    List.countP isBackoffVote (p9221_over_handle irq env).1 ≤ 1 ∧
    precedesIn isBackoffVote isPollIter (p9221_over_handle irq env).1 =
      true := by
  unfold p9221_over_handle at *
  by_cases hovv : irq.ovv = true
  · rw [if_pos hovv] at hmem
    exact absurd hmem (by simp)
  · rw [if_neg hovv] at hmem ⊢
    by_cases hovt : irq.ovt = true
    · rw [if_pos hovt] at hmem
      exact absurd hmem (by simp)
    · rw [if_neg hovt] at hmem ⊢
      by_cases huv : irq.uv = true ∧ ¬irq.ovc = true
      · rw [if_pos huv] at hmem
        exact absurd hmem (by simp)
      · rw [if_neg huv] at hmem ⊢
        have hnb : ∀ e ∈ (overLoop env 0 P9221R5_OVER_CHECK_NUM 0).1,
            isBackoffVote e = false :=
          fun e he => overLoop_no_backoff env P9221R5_OVER_CHECK_NUM 0 0 e he
        by_cases hvot : env.dc_icl_votable = true
        · rw [if_pos hvot] at hmem ⊢
          by_cases hneg : env.icl < 0
          · rw [if_pos hneg] at hmem
            simp only [List.nil_append] at hmem
            exact absurd (hnb _ hmem) (by simp [isBackoffVote])
          · rw [if_neg hneg] at hmem ⊢
            by_cases hlim : OVC_BACKOFF_LIMIT < env.icl
            · rw [if_pos hlim] at hmem ⊢
              have hv : v = env.icl - OVC_BACKOFF_AMOUNT := by
                rcases List.mem_append.mp hmem with hpre | hloop
                · simpa using hpre
                · exact absurd (hnb _ hloop) (by simp [isBackoffVote])
              refine ⟨hvot, hlim, hv, ?_, ?_⟩
              · rw [List.countP_append]
                have hz : List.countP isBackoffVote
                    (overLoop env 0 P9221R5_OVER_CHECK_NUM 0).1 = 0 :=
                  List.countP_eq_zero.mpr (by
                    intro a ha
                    simp [hnb a ha])
                simp [hz, isBackoffVote]
              · refine precedesIn_append _ _ _ _ ?_ hnb
                intro x hx
                obtain rfl : x = OverEvent.backoffVote
                    (env.icl - OVC_BACKOFF_AMOUNT) := by simpa using hx
                rfl
            · rw [if_neg hlim] at hmem
              simp only [List.nil_append] at hmem
              exact absurd (hnb _ hmem) (by simp [isBackoffVote])
        · rw [if_neg hvot] at hmem
          simp only [List.nil_append] at hmem
          exact absurd (hnb _ hmem) (by simp [isBackoffVote])

/-- C4 witness: a concrete invocation in which the backoff vote is cast:
effective limit 1000000 uA backs off to 900000 uA, once, before the
polling loop. -/
theorem over_handle_backoff_once_witness :
    overEnvPersistent.dc_icl_votable = true ∧
    OVC_BACKOFF_LIMIT < overEnvPersistent.icl ∧
    (900000 : Int) = overEnvPersistent.icl - OVC_BACKOFF_AMOUNT ∧
    List.countP isBackoffVote
      (p9221_over_handle ⟨false, false, false, true⟩ overEnvPersistent).1 ≤ 1 ∧
    precedesIn isBackoffVote isPollIter
      (p9221_over_handle ⟨false, false, false, true⟩ overEnvPersistent).1 =
      true :=
  over_handle_backoff_once ⟨false, false, false, true⟩ overEnvPersistent
    900000 (by decide)

/-! ### RTX enable/disable -/

/-- C3 counterexample: an RTX enable attempted while the receive session
is online is refused (state unchanged), but `p9382_set_rtx` returns 0
(success), not an error: `ret` is initialized to 0 and the refusal paths
`goto exit` without setting it. -/
theorem set_rtx_refusal_returns_zero :
    rtxStateOnline.online = true ∧
    (p9382_set_rtx rtxStateOnline rtxEnvOk true).1 = rtxStateOnline ∧
    (p9382_set_rtx rtxStateOnline rtxEnvOk true).2.1 = 0 ∧
    ¬(p9382_set_rtx rtxStateOnline rtxEnvOk true).2.1 < 0 := by
  decide

/-- C3 (amended): an RTX enable attempted while a receive session is
online, or while the transmit-current-limit votable resolves to 0, is
refused with no state change: `ben_state` (and every other field) is left
as it was, no boost/switch output is asserted, no `DISABLE_DCIN_EN` vote
is cast (the only action is the uevent notification) — but the refusal is
reported as 0 (success), not as an error. -/
theorem set_rtx_refused_no_state_change (st : RtxState) (env : RtxEnv)
    (href : (env.txIclVotable = true ∧ env.txIcl = 0) ∨ st.online = true) :
    (p9382_set_rtx st env true).1 = st ∧
    (p9382_set_rtx st env true).2.1 = 0 ∧
    (p9382_set_rtx st env true).2.2 = [RtxEvent.ueventWork] := by
  simp only [p9382_set_rtx]
  rcases href with ⟨hv, h0⟩ | hon
  · have ht : (if env.txIclVotable then env.txIcl else -1) = 0 := by
      rw [if_pos hv]
      exact h0
    simp only [ht]
    refine ⟨?_, ?_, ?_⟩ <;> trivial
  · by_cases h0 : (if env.txIclVotable then env.txIcl else -1) = 0
    · simp only [h0]
      refine ⟨?_, ?_, ?_⟩ <;> trivial
    · simp only [if_neg h0, if_pos hon]
      refine ⟨?_, ?_, ?_⟩ <;> trivial

/-- C3 witness: the amended statement at the concrete refused call. -/
theorem set_rtx_refused_no_state_change_witness :
    (p9382_set_rtx rtxStateOnline rtxEnvOk true).1 = rtxStateOnline ∧
    (p9382_set_rtx rtxStateOnline rtxEnvOk true).2.1 = 0 ∧
    (p9382_set_rtx rtxStateOnline rtxEnvOk true).2.2 =
      [RtxEvent.ueventWork] :=
  set_rtx_refused_no_state_change rtxStateOnline rtxEnvOk (Or.inr rfl)

/-- C5: in every execution of `p9382_set_rtx` the `DISABLE_DCIN_EN` vote
is committed before the boost/switch outputs are asserted; if that vote
fails the call aborts without asserting any output; and the vote is
released only after the outputs have been deasserted (this covers the
disable path and the revert path after a failed transmit-mode command). -/
theorem set_rtx_dcin_vote_ordering (st : RtxState) (env : RtxEnv) (b : Bool) :
    precedesIn isDcinVoteOn isOutputsOn (p9382_set_rtx st env b).2.2 = true ∧
    precedesIn isOutputsOff isDcinVoteOff (p9382_set_rtx st env b).2.2 =
      true ∧
    ((st.dcinVotableKnown || env.findDcinVotable) = true →
      env.dcinVoteOnRet ≠ 0 →
      ∀ e ∈ (p9382_set_rtx st env b).2.2, isOutputsOn e = false) := by
  cases b <;>
    (simp only [p9382_set_rtx, p9382_ben_cfg]
     split_ifs <;> refine ⟨?_, ?_, ?_⟩) <;>
    first
      | (simp [precedesIn, isDcinVoteOn, isOutputsOn, isDcinVoteOff,
           isOutputsOff]
         done)
      | (intro h1 h2
         first
           | (simp_all [precedesIn, isDcinVoteOn, isOutputsOn, isDcinVoteOff,
                isOutputsOff, Bool.or_eq_true]
              done)
           | (exact absurd ⟨h1, h2⟩ (by assumption))
           | (simp_all [precedesIn, isDcinVoteOn, isOutputsOn, isDcinVoteOff,
                isOutputsOff, Bool.or_eq_true]
              tauto))

/-- C5 witness: a concrete enable whose exclusivity vote fails: the only
events are the vote and the uevent notification — no output is asserted,
and both orderings hold. -/
theorem set_rtx_dcin_vote_ordering_witness :
    precedesIn isDcinVoteOn isOutputsOn
      (p9382_set_rtx rtxStateOff rtxEnvVoteFail true).2.2 = true ∧
    precedesIn isOutputsOff isDcinVoteOff
      (p9382_set_rtx rtxStateOff rtxEnvVoteFail true).2.2 = true ∧
    ∀ e ∈ (p9382_set_rtx rtxStateOff rtxEnvVoteFail true).2.2,
      isOutputsOn e = false :=
  ⟨(set_rtx_dcin_vote_ordering rtxStateOff rtxEnvVoteFail true).1,
   (set_rtx_dcin_vote_ordering rtxStateOff rtxEnvVoteFail true).2.1,
   (set_rtx_dcin_vote_ordering rtxStateOff rtxEnvVoteFail true).2.2
     (by decide) (by decide)⟩

/-! ### Mutual exclusion of receive session and RTX -/

/-- C2 counterexample: the mutual-exclusion invariant fails.  From the
idle state, a VRECT interrupt flags `check_det`, then RTX is enabled
(allowed: not online), and then the pending notifier work runs
`p9221_notifier_check_det`, whose guard `online && !ben_state` does not
fire, so it sets the session online while `ben_state` is `RTX_BEN_ON`:
a reachable state has both a receive session online and RTX enabled. -/
theorem det_mutual_exclusion_violated :
    Relation.ReflTransGen DetStep ⟨false, .disabled, false⟩
      ⟨true, .benOn, false⟩ ∧
    (⟨true, .benOn, false⟩ : DetState).online = true ∧
    (⟨true, .benOn, false⟩ : DetState).ben ≠ .disabled := by
  refine ⟨?_, rfl, by decide⟩
  have s1 : DetStep ⟨false, .disabled, false⟩ ⟨false, .disabled, true⟩ :=
    DetStep.vrectIrq ⟨false, .disabled, false⟩ rfl rfl
  have s2 : DetStep ⟨false, .disabled, true⟩ ⟨false, .benOn, true⟩ :=
    DetStep.rtxEnable ⟨false, .disabled, true⟩ rfl
  have s3 : DetStep ⟨false, .benOn, true⟩ ⟨true, .benOn, false⟩ := by
    have h := DetStep.notifierDet ⟨false, .benOn, true⟩ rfl
    rw [if_neg (by decide)] at h
    exact h
  exact Relation.ReflTransGen.head s1
    (Relation.ReflTransGen.head s2 (Relation.ReflTransGen.single s3))

/-- C2 (amended): the RTX enable path itself does uphold the exclusion:
no step establishes RTX while the receive session is online (the enable
guard refuses while online), but the detect path does not — it can set
the session online while RTX is enabled (see the counterexample), so
at-most-one-of {online, RTX enabled} is not an invariant of all reachable
states. -/
theorem rtx_enable_refused_while_online (s s' : DetState)
    (hstep : DetStep s s') (hon : s.online = true)
    (hben : s.ben = .disabled) : s'.ben = .disabled := by
  cases hstep with
  | vrectIrq hb ho => exact hben
  | rtxEnable ho =>
      rw [hon] at ho
      exact absurd ho (by decide)
  | rtxDisable => rfl
  | notifierDet hdet =>
      split <;> exact hben

/-- C2 witness: a concrete step (the detect path running while online with
RTX off) after which RTX is still disabled. -/
theorem rtx_enable_refused_while_online_witness :
    (⟨true, .disabled, false⟩ : DetState).ben = .disabled :=
  rtx_enable_refused_while_online ⟨true, .disabled, true⟩
    ⟨true, .disabled, false⟩
    (by
      have h := DetStep.notifierDet ⟨true, .disabled, true⟩ rfl
      rw [if_pos (by decide)] at h
      exact h)
    rfl rfl

/-! ### FOD verify-write -/

theorem writeFodLoop_spec (fod : List Nat) (env : FodEnv) :
    ∀ (r k : Nat),
      (writeFodLoop fod env r k).attempts ≤ k + r ∧
      ((writeFodLoop fod env r k).outcome = .verified →
        env.readBack ((writeFodLoop fod env r k).attempts - 1) = fod) ∧
      ((writeFodLoop fod env r k).outcome = .exhausted →
        (writeFodLoop fod env r k).warned = true) := by
  intro r
  induction r with
  | zero =>
      intro k
      refine ⟨by simp [writeFodLoop], ?_, ?_⟩
      · intro h
        simp [writeFodLoop] at h
      · intro _
        rfl
  | succ n ih =>
      intro k
      simp only [writeFodLoop]
      by_cases h1 : env.writeRet k ≠ 0
      · rw [if_pos h1]
        refine ⟨by simp only [FodRun.mk.injEq]; omega, ?_, ?_⟩ <;>
          intro h <;> simp at h
      · rw [if_neg h1]
        by_cases h2 : env.readRet k ≠ 0
        · rw [if_pos h2]
          refine ⟨by simp only [FodRun.mk.injEq]; omega, ?_, ?_⟩ <;>
            intro h <;> simp at h
        · rw [if_neg h2]
          by_cases h3 : env.readBack k = fod
          · rw [if_pos h3]
            refine ⟨by simp only [FodRun.mk.injEq]; omega, ?_, ?_⟩
            · intro _
              simpa using h3
            · intro h
              simp at h
          · rw [if_neg h3]
            have := ih (k + 1)
            exact ⟨by omega, this.2.1, this.2.2⟩

/-- C8 counterexample: when the read-back never matches, the verify-write
loop exhausts its retries and only logs a warning — the function returns
`void`, so the caller-visible result of the failed run is identical to
that of a successful run: the operation does not report failure to its
caller. -/
theorem write_fod_silent_failure :
    (p9221_write_fod (some [10, 20]) fodEnvNeverMatch).outcome =
      .exhausted ∧
    (p9221_write_fod (some [10, 20]) fodEnvMatch).outcome = .verified ∧
    (p9221_write_fod (some [10, 20]) fodEnvNeverMatch).callerResult =
      (p9221_write_fod (some [10, 20]) fodEnvMatch).callerResult := by
  decide

/-- C8 (amended): the FOD table is written and read back at most 3 times;
the operation verifies only when the read-back matches the written table
byte-for-byte; and when no verification matches within the retry budget it
logs the `no_fod` warning but, being `void`, does not report the failure
to its caller. -/
theorem write_fod_verify (fod : List Nat) (env : FodEnv) :
    (p9221_write_fod (some fod) env).attempts ≤ 3 ∧
    ((p9221_write_fod (some fod) env).outcome = .verified →
      env.readBack ((p9221_write_fod (some fod) env).attempts - 1) = fod) ∧
    ((p9221_write_fod (some fod) env).outcome = .exhausted →
      (p9221_write_fod (some fod) env).warned = true) :=
  writeFodLoop_spec fod env 3 0

/-- C8 witness: a run that verifies on the first attempt read back exactly
the written table. -/
theorem write_fod_verify_witness :
    (p9221_write_fod (some [10, 20]) fodEnvMatch).attempts ≤ 3 ∧
    fodEnvMatch.readBack
      ((p9221_write_fod (some [10, 20]) fodEnvMatch).attempts - 1) =
      [10, 20] :=
  ⟨(write_fod_verify [10, 20] fodEnvMatch).1,
   (write_fod_verify [10, 20] fodEnvMatch).2.1 (by decide)⟩

/-! ### Notifier work: uninitialized error variable -/

/-- C9: in the configuration `q_value = -1`, `epp_rp_value ≠ -1`, the
`if (ret < 0)` test after `chip_renegotiate_pwr` executes having read
`ret` before any assignment in the invocation (`readUninit`), and the
discarded return value of `chip_renegotiate_pwr` has no effect on the
run: the run is identical for any two values it might return. -/
theorem notifier_ret_uninit_read (writeQRet r1 r2 : Int) :
    (p9221_notifier_work_ret (-1) 0 writeQRet r1).renegTestRan = true ∧
    (p9221_notifier_work_ret (-1) 0 writeQRet r1).readUninit = true ∧
    (p9221_notifier_work_ret (-1) 0 writeQRet r1).retAtTest = .unset ∧
    p9221_notifier_work_ret (-1) 0 writeQRet r1 =
      p9221_notifier_work_ret (-1) 0 writeQRet r2 :=
  ⟨rfl, rfl, rfl, rfl⟩
